import Mathlib

/-!
Shallow embedding of `nf_core/utils.py`, function `fetch_wf_config` and the
helpers it is built from (configuration resolution with a content-addressed
cache).  Python dicts over string keys/values become insertion-ordered
association lists; filesystem and subprocess effects become explicit inputs
(an `Env`) and recorded events (a `FetchResult`).  The SHA-256 digest used by
the source (`hashlib.sha256(...).hexdigest()`) is abstracted as a parameter
`sha256hex : String → String`; every theorem holds for any such function.
-/

namespace NfCoreUtils

/-- A Python `dict` with `str` keys and `str` values, as an insertion-ordered
association list with unique keys.  `dict()` is `[]`. -/
abbrev ConfigMapping := List (String × String)

/-- Python dict lookup `m[k]` (as an `Option`): first entry with the key. -/
def dictGet : ConfigMapping → String → Option String
  | [], _ => none
  | (k₀, v₀) :: rest, k => if k₀ = k then some v₀ else dictGet rest k

/-- Python dict assignment `m[k] = v`: replace the value in place if the key
is present (keeping its position, as CPython dicts do), otherwise append. -/
def dictInsert : ConfigMapping → String → String → ConfigMapping
  | [], k, v => [(k, v)]
  | (k₀, v₀) :: rest, k, v =>
      if k₀ = k then (k, v) :: rest else (k₀, v₀) :: dictInsert rest k v

/-- Python `s.split(sep, 1)` restricted to the fallible two-part case:
split at the first occurrence of `sep`, `none` when `sep` does not occur
(the source catches the resulting `ValueError`). -/
def splitFirst (sep : List Char) : List Char → Option (List Char × List Char)
  | [] => none
  | c :: rest =>
      if List.isPrefixOf sep (c :: rest) then
        some ([], (c :: rest).drop sep.length)
      else
        match splitFirst sep rest with
        | some (k, v) => some (c :: k, v)
        | none => none

/-- `ul.split(" = ", 1)` from the source, on whole strings. -/
def splitPyOnce (ul : String) : Option (String × String) :=
  match splitFirst (" = ".data) ul.data with
  | some (k, v) => some (String.mk k, String.mk v)
  | none => none

/-- One iteration of the tool-output loop (utils.py lines 211-217):
`k, v = ul.split(" = ", 1); config[k] = v`, with a `ValueError` on a line
lacking the separator caught and logged (the line is skipped). -/
def parseLine (config : ConfigMapping) (ul : String) : ConfigMapping :=
  match splitPyOnce ul with
  | some (k, v) => dictInsert config k v
  | none => config

/-- The whole parse of `nextflow config -flat` stdout: fold `parseLine`
over the captured lines starting from the (empty) `config` dict. -/
def parseToolOutput (config : ConfigMapping) (lines : List String) : ConfigMapping :=
  lines.foldl parseLine config

/-- Python regex `\s` (ASCII whitespace as relevant to single lines). -/
def isPySpace (c : Char) : Bool :=
  c = ' ' || c = '\t' || c = '\n' || c = '\r' || c = '\x0b' || c = '\x0c'

/-- Regex class `[a-zA-Z0-9_]`. -/
def isWordChar (c : Char) : Bool :=
  (('a' ≤ c && c ≤ 'z') || ('A' ≤ c && c ≤ 'Z') || ('0' ≤ c && c ≤ '9') || c = '_')

/-- `re.match(r"^\s*(params\.[a-zA-Z0-9_]+)\s*=", l)` from utils.py line 225,
returning `match.group(1)` on success. -/
def scanLine (l : List Char) : Option String :=
  let rest := l.dropWhile isPySpace
  if List.isPrefixOf ("params.".data) rest then
    let afterDot := rest.drop 7
    let ident := afterDot.takeWhile isWordChar
    if ident.isEmpty then none
    else
      match (afterDot.drop ident.length).dropWhile isPySpace with
      | '=' :: _ => some ("params." ++ String.mk ident)
      | _ => none
  else none

/-- Split file content into lines on the newline character (the iteration
`for l in fh` of the source; trailing newlines are immaterial to `scanLine`
because its pattern only constrains a prefix of the line). -/
def splitCharsOn (sep : Char) : List Char → List (List Char)
  | [] => [[]]
  | c :: rest =>
      if c = sep then [] :: splitCharsOn sep rest
      else
        match splitCharsOn sep rest with
        | line :: more => (c :: line) :: more
        | [] => [[c]]

/-- The parameter names `match.group(1)` captured while scanning a file
content line by line. -/
def scannedNames (content : String) : List String :=
  (splitCharsOn '\n' content.data).filterMap scanLine

/-- The `main.nf` scraping loop (utils.py lines 219-229): for each line that
matches the parameter pattern, `config[match.group(1)] = "false"`; an absent
file (`FileNotFoundError`) leaves the mapping unchanged. -/
def scanMainNf (config : ConfigMapping) (main_nf : Option String) : ConfigMapping :=
  match main_nf with
  | none => config
  | some content =>
      (splitCharsOn '\n' content.data).foldl
        (fun c l =>
          match scanLine l with
          | some name => dictInsert c name "false"
          | none => c)
        config

/-- The scanned names of an optional `main.nf` content. -/
def scannedNamesOf : Option String → List String
  | none => []
  | some content => scannedNames content

/-- A workflow directory as `fetch_wf_config` observes it: the contents of
the two tracked files when present (as the UTF-8 text of their raw bytes),
plus metadata and unrelated files the function never reads. -/
structure WorkflowDir where
  nextflow_config : Option String
  main_nf : Option String
  timestamps : List (String × Nat)
  permissions : List (String × Nat)
  otherFiles : List (String × String)

/-- Python `s[:n]` on strings (character prefix). -/
def strTake (s : String) (n : Nat) : String := String.mk (s.data.take n)

/-- The `concat_hash` accumulation of utils.py lines 180-186: for each of
`nextflow.config`, `main.nf` in that order, append the hex digest of the file
content if the file exists, else skip it. -/
def concat_hash (sha256hex : String → String) (d : WorkflowDir) : String :=
  (match d.nextflow_config with
   | some content => sha256hex content
   | none => "") ++
  (match d.main_nf with
   | some content => sha256hex content
   | none => "")

/-- The `bighash` of utils.py lines 188-189: hash of the concatenated per-file
digests, or `none` when no tracked file existed. -/
def bighash (sha256hex : String → String) (d : WorkflowDir) : Option String :=
  if 0 < (concat_hash sha256hex d).length then
    some (sha256hex (concat_hash sha256hex d))
  else none

/-- The cache filename `"wf-config-cache-{}.json".format(bighash[:25])` of
utils.py line 190, `none` when there is no fingerprint. -/
def cache_fn_of (sha256hex : String → String) (d : WorkflowDir) : Option String :=
  (bighash sha256hex d).map (fun b => "wf-config-cache-" ++ strTake b 25 ++ ".json")

/-- `errno.ENOENT`. -/
def ENOENT : Nat := 2

/-- Outcome of `subprocess.check_output(["nextflow", "config", "-flat", wf_path])`
as an input of the model: the stdout lines on success, or the exception the
call raised. -/
inductive ToolOutcome where
  | success (lines : List String)
  | osErrorRaised (errnoVal : Nat)
  | calledProcessError (returncode : Int) (output : String)
deriving Repr, DecidableEq

/-- An exception escaping `fetch_wf_config`. -/
inductive PyError where
  | assertionError (msg : String)
  | jsonDecodeError
  | osError (op : String)
deriving Repr, DecidableEq

/-- A Python call either returns a value or raises. -/
inductive PyResult where
  | raised (e : PyError)
  | returned (config : ConfigMapping)
deriving Repr, DecidableEq

/-- The filesystem and subprocess environment `fetch_wf_config` runs in.
`cacheFiles` maps a cache filename to `none` (file absent), `some none`
(file present but `json.load` fails on its content) or `some (some m)`
(file present, parses to mapping `m`). -/
structure Env where
  nxf_home_isdir : Bool
  cache_basedir_isdir : Bool
  mkdir_ok : Bool
  cacheFiles : String → Option (Option ConfigMapping)
  tool : ToolOutcome
  write_ok : Bool

/-- The observable outcome of one `fetch_wf_config` call: the returned value
or escaping exception, together with the recorded side effects (whether the
subprocess was launched, whether the `main.nf` scan ran to completion, which
cache filenames were looked up, which cache writes completed, and which
directories were created by `os.mkdir`). -/
structure FetchResult where
  result : PyResult
  toolInvoked : Bool
  scannedMain : Bool
  cacheReads : List String
  cacheWrites : List (String × ConfigMapping)
  mkdirCalls : List String
deriving Repr, DecidableEq

/-- The tail of `fetch_wf_config` after a successful (or swallowed) tool
invocation (utils.py lines 219-237): scan `main.nf` into `config`, then, when
a `cache_path` was derived, write the cache file (an `OSError` from the write
propagates), and return `config`. -/
def afterTool (env : Env) (d : WorkflowDir) (cache_path : Option String)
    (mkdirCalls cacheReads : List String) (config : ConfigMapping) : FetchResult :=
  let config := scanMainNf config d.main_nf
  match cache_path with
  | some cfn =>
      if env.write_ok then
        { result := .returned config, toolInvoked := true, scannedMain := true,
          cacheReads := cacheReads, cacheWrites := [(cfn, config)], mkdirCalls := mkdirCalls }
      else
        { result := .raised (.osError "open cache_path for writing"),
          toolInvoked := true, scannedMain := true,
          cacheReads := cacheReads, cacheWrites := [], mkdirCalls := mkdirCalls }
  | none =>
      { result := .returned config, toolInvoked := true, scannedMain := true,
        cacheReads := cacheReads, cacheWrites := [], mkdirCalls := mkdirCalls }

/-- The message of the `AssertionError` raised when the tool is absent
(utils.py line 207). -/
def nextflowMissingMsg : String :=
  "It looks like Nextflow is not installed. It is required for most nf-core functions."

/-- The message of the `AssertionError` raised on a non-zero exit
(utils.py line 209). -/
def nextflowFailedMsg : String :=
  "nextflow config returned non-zero error code"

/-- The tool invocation of utils.py lines 201-217: `check_output` with an
`OSError` handler that re-raises only for `ENOENT` (any other `OSError` is
silently swallowed, leaving `config` untouched and skipping the parse), a
`CalledProcessError` handler that raises an `AssertionError`, and an `else`
branch that parses stdout into `config`. -/
def freshResolve (env : Env) (d : WorkflowDir) (cache_path : Option String)
    (mkdirCalls cacheReads : List String) : FetchResult :=
  match env.tool with
  | .success lines =>
      afterTool env d cache_path mkdirCalls cacheReads (parseToolOutput [] lines)
  | .osErrorRaised e =>
      if e = ENOENT then
        { result := .raised (.assertionError nextflowMissingMsg),
          toolInvoked := true, scannedMain := false,
          cacheReads := cacheReads, cacheWrites := [], mkdirCalls := mkdirCalls }
      else
        afterTool env d cache_path mkdirCalls cacheReads []
  | .calledProcessError _ _ =>
      { result := .raised (.assertionError nextflowFailedMsg),
        toolInvoked := true, scannedMain := false,
        cacheReads := cacheReads, cacheWrites := [], mkdirCalls := mkdirCalls }

/-- The `os.mkdir` calls performed by utils.py lines 172-175: the `nf-core`
subdirectory of `NXF_HOME` is created exactly when `NXF_HOME` is a directory
and the subdirectory is not; nothing else is ever created. -/
def mkdirCallsOf (env : Env) : List String :=
  if env.nxf_home_isdir && !env.cache_basedir_isdir then ["nf-core"] else []

/-- `fetch_wf_config` (utils.py lines 152-237).  Lines 168-175: when
`NXF_HOME` is a directory, set `cache_basedir` to its `nf-core` subdirectory
and `os.mkdir` it if missing (a failing `mkdir` raises).  Lines 178-190:
derive `cache_fn` from the content fingerprint.  Lines 192-198: when both
`cache_basedir` and `cache_fn` are set, form `cache_path` and, if that file
exists, `json.load` it and return (a parse failure raises).  Otherwise fall
through to the fresh resolution. -/
def fetch_wf_config (sha256hex : String → String) (env : Env) (d : WorkflowDir) :
    FetchResult :=
  if (env.nxf_home_isdir && !env.cache_basedir_isdir) && !env.mkdir_ok then
    { result := .raised (.osError "mkdir cache_basedir"),
      toolInvoked := false, scannedMain := false,
      cacheReads := [], cacheWrites := [], mkdirCalls := mkdirCallsOf env }
  else
    match (if env.nxf_home_isdir then cache_fn_of sha256hex d else none) with
    | some cfn =>
        match env.cacheFiles cfn with
        | some (some config) =>
            { result := .returned config, toolInvoked := false, scannedMain := false,
              cacheReads := [cfn], cacheWrites := [], mkdirCalls := mkdirCallsOf env }
        | some none =>
            { result := .raised .jsonDecodeError, toolInvoked := false,
              scannedMain := false,
              cacheReads := [cfn], cacheWrites := [], mkdirCalls := mkdirCallsOf env }
        | none => freshResolve env d (some cfn) (mkdirCallsOf env) [cfn]
    | none => freshResolve env d none (mkdirCallsOf env) []

/-- Apply completed cache writes to the cache filesystem (the effect of
`json.dump(config, fh)` on the file named by the write). -/
def writeFiles (files : String → Option (Option ConfigMapping))
    (ws : List (String × ConfigMapping)) : String → Option (Option ConfigMapping) :=
  ws.foldl (fun f w => fun n => if n = w.1 then some (some w.2) else f n) files

/-- The environment after one `fetch_wf_config` call: its cache writes have
landed on disk and any created directory now exists. -/
def stepEnv (env : Env) (r : FetchResult) : Env :=
  { env with
    cacheFiles := writeFiles env.cacheFiles r.cacheWrites,
    cache_basedir_isdir := env.cache_basedir_isdir || !r.mkdirCalls.isEmpty }

/-- Folding a list of scanned names into a mapping with the sentinel value
(the shape of the `main.nf` scraping loop, used to state merge facts). -/
def scanFold (config : ConfigMapping) (ns : List String) : ConfigMapping :=
  ns.foldl (fun c n => dictInsert c n "false") config

/-! Concrete values used by witnesses and counterexamples.  `constHex`
stands in for the SHA-256 hex digest: a fixed 64-character output, which is
all the resolver relies on. -/

/-- A fixed 64-character hex string, the shape of a SHA-256 hex digest. -/
def hex64 : String := "0123456789abcdef0123456789abcdef0123456789abcdef0123456789abcdef"

/-- A concrete stand-in for the digest function, for witnesses. -/
def constHex : String → String := fun _ => hex64

/-- The cache filename derived from `hex64`. -/
def cfnHex : String := "wf-config-cache-0123456789abcdef012345678.json"

/-- A directory whose tool-reported key `params.a` is also declared in
`main.nf`, together with a second declared-only parameter `params.b`. -/
def dScan : WorkflowDir :=
  { nextflow_config := none,
    main_nf := some "params.a = 2\nparams.b = 3",
    timestamps := [],
    permissions := [],
    otherFiles := [] }

/-- A directory with only `nextflow.config` present. -/
def dCfg : WorkflowDir :=
  { nextflow_config := some "manifest.name = demo",
    main_nf := none,
    timestamps := [],
    permissions := [],
    otherFiles := [] }

/-- A directory with no tracked files at all. -/
def dEmpty : WorkflowDir :=
  { nextflow_config := none,
    main_nf := none,
    timestamps := [],
    permissions := [],
    otherFiles := [] }

/-- `dCfg` with different timestamps, permissions and unrelated files but
byte-identical tracked contents. -/
def dCfgOther : WorkflowDir :=
  { nextflow_config := some "manifest.name = demo",
    main_nf := none,
    timestamps := [("nextflow.config", 1700000000)],
    permissions := [("nextflow.config", 600)],
    otherFiles := [("README.md", "hello")] }

/-- No `NXF_HOME` directory; the tool reports `params.a = 1`. -/
def envScan : Env :=
  { nxf_home_isdir := false,
    cache_basedir_isdir := false,
    mkdir_ok := true,
    cacheFiles := fun _ => none,
    tool := .success ["params.a = 1"],
    write_ok := true }

/-- Cache directory in place, but every cache file has unparseable content. -/
def envCorrupt : Env :=
  { nxf_home_isdir := true,
    cache_basedir_isdir := true,
    mkdir_ok := true,
    cacheFiles := fun _ => some none,
    tool := .success [],
    write_ok := true }

/-- Cache directory in place and empty; writing the cache file fails. -/
def envNoWrite : Env :=
  { nxf_home_isdir := true,
    cache_basedir_isdir := true,
    mkdir_ok := true,
    cacheFiles := fun _ => none,
    tool := .success ["a = 1"],
    write_ok := false }

/-- Cache directory in place; every cache file reads back `{"k": "v"}`. -/
def envHit : Env :=
  { nxf_home_isdir := true,
    cache_basedir_isdir := true,
    mkdir_ok := true,
    cacheFiles := fun _ => some (some [("k", "v")]),
    tool := .success [],
    write_ok := true }

/-- Cache directory in place and empty; tool succeeds; writes succeed. -/
def envRound : Env :=
  { nxf_home_isdir := true,
    cache_basedir_isdir := true,
    mkdir_ok := true,
    cacheFiles := fun _ => none,
    tool := .success ["params.a = 1"],
    write_ok := true }

/-- The `nextflow` executable is missing (`OSError` with `ENOENT`). -/
def envNoTool : Env :=
  { nxf_home_isdir := false,
    cache_basedir_isdir := false,
    mkdir_ok := true,
    cacheFiles := fun _ => none,
    tool := .osErrorRaised ENOENT,
    write_ok := true }

/-- The subprocess call raises `OSError` with `errno = EACCES` (13). -/
def envEacces : Env :=
  { nxf_home_isdir := false,
    cache_basedir_isdir := false,
    mkdir_ok := true,
    cacheFiles := fun _ => none,
    tool := .osErrorRaised 13,
    write_ok := true }

/-! Helper lemmas about the dictionary model. -/

theorem dictGet_dictInsert (m : ConfigMapping) (k v k' : String) :
    dictGet (dictInsert m k v) k' = if k' = k then some v else dictGet m k' := by
  induction m with
  | nil =>
      by_cases h : k' = k
      · subst h; simp [dictInsert, dictGet]
      · simp [dictInsert, dictGet, h, Ne.symm h]
  | cons hd tl ih =>
      obtain ⟨k₀, v₀⟩ := hd
      by_cases h₀ : k₀ = k
      · subst h₀
        by_cases h : k' = k₀
        · subst h; simp [dictInsert, dictGet]
        · simp [dictInsert, dictGet, h, Ne.symm h]
      · by_cases h : k₀ = k'
        · subst h
          simp [dictInsert, dictGet, h₀]
        · simp [dictInsert, dictGet, h₀, h, ih]

theorem mem_dictInsert {m : ConfigMapping} {k v : String} {kv : String × String}
    (h : kv ∈ dictInsert m k v) : kv ∈ m ∨ kv = (k, v) := by
  induction m with
  | nil => simpa [dictInsert] using h
  | cons hd tl ih =>
      obtain ⟨k₀, v₀⟩ := hd
      by_cases h₀ : k₀ = k
      · subst h₀
        simp [dictInsert] at h
        rcases h with h | h
        · exact Or.inr (by simp [h])
        · exact Or.inl (by simp [h])
      · simp [dictInsert, h₀] at h
        rcases h with h | h
        · exact Or.inl (by simp [h])
        · rcases ih h with h' | h'
          · exact Or.inl (by simp [h'])
          · exact Or.inr h'

theorem dictGet_scanFold (ns : List String) (c : ConfigMapping) (k : String) :
    dictGet (scanFold c ns) k = if k ∈ ns then some "false" else dictGet c k := by
  induction ns generalizing c with
  | nil => simp [scanFold]
  | cons n rest ih =>
      have step : scanFold c (n :: rest) = scanFold (dictInsert c n "false") rest := by
        simp [scanFold]
      rw [step, ih, dictGet_dictInsert]
      by_cases hmem : k ∈ rest
      · simp [hmem]
      · by_cases hk : k = n <;> simp [hmem, hk]

theorem values_scanFold (ns : List String) (c : ConfigMapping)
    (h : ∀ kv ∈ c, kv.2 = "false") :
    ∀ kv ∈ scanFold c ns, kv.2 = "false" := by
  induction ns generalizing c with
  | nil => simpa [scanFold] using h
  | cons n rest ih =>
      have step : scanFold c (n :: rest) = scanFold (dictInsert c n "false") rest := by
        simp [scanFold]
      rw [step]
      refine ih (dictInsert c n "false") ?_
      intro kv hkv
      rcases mem_dictInsert hkv with h' | h'
      · exact h kv h'
      · simp [h']

theorem scanMainNf_eq_scanFold (c : ConfigMapping) (mo : Option String) :
    scanMainNf c mo = scanFold c (scannedNamesOf mo) := by
  cases mo with
  | none => simp [scanMainNf, scannedNamesOf, scanFold]
  | some content =>
      show ((splitCharsOn '\n' content.data).foldl _ c) =
        scanFold c ((splitCharsOn '\n' content.data).filterMap scanLine)
      generalize splitCharsOn '\n' content.data = ls
      induction ls generalizing c with
      | nil => simp [scanFold]
      | cons l rest ih =>
          cases hl : scanLine l <;>
            simp [List.foldl_cons, List.filterMap_cons, hl, ih, scanFold]

/-! Helper lemmas characterising the branches of `fetch_wf_config`. -/

theorem afterTool_none (env : Env) (d : WorkflowDir) (mk cr : List String)
    (config : ConfigMapping) :
    afterTool env d none mk cr config =
      { result := .returned (scanMainNf config d.main_nf),
        toolInvoked := true, scannedMain := true,
        cacheReads := cr, cacheWrites := [], mkdirCalls := mk } := by
  simp [afterTool]

theorem afterTool_some_ok (env : Env) (d : WorkflowDir) (cfn : String)
    (mk cr : List String) (config : ConfigMapping) (hw : env.write_ok = true) :
    afterTool env d (some cfn) mk cr config =
      { result := .returned (scanMainNf config d.main_nf),
        toolInvoked := true, scannedMain := true,
        cacheReads := cr,
        cacheWrites := [(cfn, scanMainNf config d.main_nf)], mkdirCalls := mk } := by
  simp [afterTool, hw]

theorem afterTool_some_fail (env : Env) (d : WorkflowDir) (cfn : String)
    (mk cr : List String) (config : ConfigMapping) (hw : env.write_ok = false) :
    afterTool env d (some cfn) mk cr config =
      { result := .raised (.osError "open cache_path for writing"),
        toolInvoked := true, scannedMain := true,
        cacheReads := cr, cacheWrites := [], mkdirCalls := mk } := by
  simp [afterTool, hw]

theorem afterTool_returned {env : Env} {d : WorkflowDir} {cp : Option String}
    {mk cr : List String} {config m : ConfigMapping}
    (h : (afterTool env d cp mk cr config).result = .returned m) :
    m = scanMainNf config d.main_nf := by
  cases cp with
  | none => rw [afterTool_none] at h; exact (PyResult.returned.inj h).symm
  | some cfn =>
      cases hw : env.write_ok with
      | true => rw [afterTool_some_ok env d cfn mk cr config hw] at h
                exact (PyResult.returned.inj h).symm
      | false => rw [afterTool_some_fail env d cfn mk cr config hw] at h
                 exact absurd h (by simp)

theorem afterTool_toolInvoked (env : Env) (d : WorkflowDir) (cp : Option String)
    (mk cr : List String) (config : ConfigMapping) :
    (afterTool env d cp mk cr config).toolInvoked = true := by
  cases cp with
  | none => rfl
  | some cfn => cases hw : env.write_ok <;> simp [afterTool, hw]

theorem afterTool_cacheReads (env : Env) (d : WorkflowDir) (cp : Option String)
    (mk cr : List String) (config : ConfigMapping) :
    (afterTool env d cp mk cr config).cacheReads = cr := by
  cases cp with
  | none => rfl
  | some cfn => cases hw : env.write_ok <;> simp [afterTool, hw]

theorem afterTool_mkdirCalls (env : Env) (d : WorkflowDir) (cp : Option String)
    (mk cr : List String) (config : ConfigMapping) :
    (afterTool env d cp mk cr config).mkdirCalls = mk := by
  cases cp with
  | none => rfl
  | some cfn => cases hw : env.write_ok <;> simp [afterTool, hw]

theorem freshResolve_success {env : Env} (d : WorkflowDir) (cp : Option String)
    (mk cr : List String) {lines : List String} (h : env.tool = .success lines) :
    freshResolve env d cp mk cr =
      afterTool env d cp mk cr (parseToolOutput [] lines) := by
  simp [freshResolve, h]

theorem freshResolve_oserror_enoent {env : Env} (d : WorkflowDir)
    (cp : Option String) (mk cr : List String)
    (h : env.tool = .osErrorRaised ENOENT) :
    freshResolve env d cp mk cr =
      { result := .raised (.assertionError nextflowMissingMsg),
        toolInvoked := true, scannedMain := false,
        cacheReads := cr, cacheWrites := [], mkdirCalls := mk } := by
  simp [freshResolve, h]

theorem freshResolve_oserror_other {env : Env} (d : WorkflowDir)
    (cp : Option String) (mk cr : List String) {e : Nat}
    (h : env.tool = .osErrorRaised e) (he : e ≠ ENOENT) :
    freshResolve env d cp mk cr = afterTool env d cp mk cr [] := by
  simp [freshResolve, h, he]

theorem freshResolve_cpe {env : Env} (d : WorkflowDir) (cp : Option String)
    (mk cr : List String) {rc : Int} {out : String}
    (h : env.tool = .calledProcessError rc out) :
    freshResolve env d cp mk cr =
      { result := .raised (.assertionError nextflowFailedMsg),
        toolInvoked := true, scannedMain := false,
        cacheReads := cr, cacheWrites := [], mkdirCalls := mk } := by
  simp [freshResolve, h]

theorem freshResolve_toolInvoked (env : Env) (d : WorkflowDir)
    (cp : Option String) (mk cr : List String) :
    (freshResolve env d cp mk cr).toolInvoked = true := by
  cases ht : env.tool with
  | success lines =>
      rw [freshResolve_success d cp mk cr ht]
      exact afterTool_toolInvoked env d cp mk cr _
  | osErrorRaised e =>
      by_cases he : e = ENOENT
      · subst he; rw [freshResolve_oserror_enoent d cp mk cr ht]
      · rw [freshResolve_oserror_other d cp mk cr ht he]
        exact afterTool_toolInvoked env d cp mk cr _
  | calledProcessError rc out => rw [freshResolve_cpe d cp mk cr ht]

theorem freshResolve_cacheReads (env : Env) (d : WorkflowDir)
    (cp : Option String) (mk cr : List String) :
    (freshResolve env d cp mk cr).cacheReads = cr := by
  cases ht : env.tool with
  | success lines =>
      rw [freshResolve_success d cp mk cr ht]
      exact afterTool_cacheReads env d cp mk cr _
  | osErrorRaised e =>
      by_cases he : e = ENOENT
      · subst he; rw [freshResolve_oserror_enoent d cp mk cr ht]
      · rw [freshResolve_oserror_other d cp mk cr ht he]
        exact afterTool_cacheReads env d cp mk cr _
  | calledProcessError rc out => rw [freshResolve_cpe d cp mk cr ht]

theorem freshResolve_mkdirCalls (env : Env) (d : WorkflowDir)
    (cp : Option String) (mk cr : List String) :
    (freshResolve env d cp mk cr).mkdirCalls = mk := by
  cases ht : env.tool with
  | success lines =>
      rw [freshResolve_success d cp mk cr ht]
      exact afterTool_mkdirCalls env d cp mk cr _
  | osErrorRaised e =>
      by_cases he : e = ENOENT
      · subst he; rw [freshResolve_oserror_enoent d cp mk cr ht]
      · rw [freshResolve_oserror_other d cp mk cr ht he]
        exact afterTool_mkdirCalls env d cp mk cr _
  | calledProcessError rc out => rw [freshResolve_cpe d cp mk cr ht]

theorem freshResolve_none_cacheWrites (env : Env) (d : WorkflowDir)
    (mk cr : List String) :
    (freshResolve env d none mk cr).cacheWrites = [] := by
  cases ht : env.tool with
  | success lines =>
      rw [freshResolve_success d none mk cr ht, afterTool_none]
  | osErrorRaised e =>
      by_cases he : e = ENOENT
      · subst he; rw [freshResolve_oserror_enoent d none mk cr ht]
      · rw [freshResolve_oserror_other d none mk cr ht he, afterTool_none]
  | calledProcessError rc out => rw [freshResolve_cpe d none mk cr ht]

theorem freshResolve_returned_writes {env : Env} {d : WorkflowDir} {cfn : String}
    {mk cr : List String} {m : ConfigMapping} (hw : env.write_ok = true)
    (h : (freshResolve env d (some cfn) mk cr).result = .returned m) :
    (freshResolve env d (some cfn) mk cr).cacheWrites = [(cfn, m)] := by
  cases ht : env.tool with
  | success lines =>
      rw [freshResolve_success d (some cfn) mk cr ht,
        afterTool_some_ok env d cfn mk cr _ hw] at h ⊢
      simp at h
      simp [h]
  | osErrorRaised e =>
      by_cases he : e = ENOENT
      · subst he
        rw [freshResolve_oserror_enoent d (some cfn) mk cr ht] at h
        exact absurd h (by simp)
      · rw [freshResolve_oserror_other d (some cfn) mk cr ht he,
          afterTool_some_ok env d cfn mk cr _ hw] at h ⊢
        simp at h
        simp [h]
  | calledProcessError rc out =>
      rw [freshResolve_cpe d (some cfn) mk cr ht] at h
      exact absurd h (by simp)

theorem fetch_no_home {env : Env} (sha256hex : String → String)
    (d : WorkflowDir) (hh : env.nxf_home_isdir = false) :
    fetch_wf_config sha256hex env d = freshResolve env d none [] [] := by
  simp [fetch_wf_config, mkdirCallsOf, hh]

theorem fetch_mkdir_fail {env : Env} (sha256hex : String → String)
    (d : WorkflowDir) (hh : env.nxf_home_isdir = true)
    (hb : env.cache_basedir_isdir = false) (hm : env.mkdir_ok = false) :
    fetch_wf_config sha256hex env d =
      { result := .raised (.osError "mkdir cache_basedir"),
        toolInvoked := false, scannedMain := false,
        cacheReads := [], cacheWrites := [], mkdirCalls := ["nf-core"] } := by
  simp [fetch_wf_config, mkdirCallsOf, hh, hb, hm]

theorem fetch_hit {env : Env} {sha256hex : String → String} {d : WorkflowDir}
    {cfn : String} {m : ConfigMapping}
    (hh : env.nxf_home_isdir = true) (hb : env.cache_basedir_isdir = true)
    (hfp : cache_fn_of sha256hex d = some cfn)
    (hfile : env.cacheFiles cfn = some (some m)) :
    fetch_wf_config sha256hex env d =
      { result := .returned m, toolInvoked := false, scannedMain := false,
        cacheReads := [cfn], cacheWrites := [], mkdirCalls := [] } := by
  simp [fetch_wf_config, mkdirCallsOf, hh, hb, hfp, hfile]

theorem fetch_corrupt {env : Env} {sha256hex : String → String} {d : WorkflowDir}
    {cfn : String}
    (hh : env.nxf_home_isdir = true) (hb : env.cache_basedir_isdir = true)
    (hfp : cache_fn_of sha256hex d = some cfn)
    (hfile : env.cacheFiles cfn = some none) :
    fetch_wf_config sha256hex env d =
      { result := .raised .jsonDecodeError, toolInvoked := false,
        scannedMain := false,
        cacheReads := [cfn], cacheWrites := [], mkdirCalls := [] } := by
  simp [fetch_wf_config, mkdirCallsOf, hh, hb, hfp, hfile]

theorem fetch_miss {env : Env} {sha256hex : String → String} {d : WorkflowDir}
    {cfn : String}
    (hh : env.nxf_home_isdir = true) (hb : env.cache_basedir_isdir = true)
    (hfp : cache_fn_of sha256hex d = some cfn)
    (hfile : env.cacheFiles cfn = none) :
    fetch_wf_config sha256hex env d = freshResolve env d (some cfn) [] [cfn] := by
  simp [fetch_wf_config, mkdirCallsOf, hh, hb, hfp, hfile]

theorem fetch_no_fingerprint {env : Env} {sha256hex : String → String}
    {d : WorkflowDir} (hfp : cache_fn_of sha256hex d = none)
    (hm : env.mkdir_ok = true) :
    fetch_wf_config sha256hex env d =
      freshResolve env d none (mkdirCallsOf env) [] := by
  simp [fetch_wf_config, hfp, hm]

theorem fetch_invoked {env : Env} {sha256hex : String → String} {d : WorkflowDir}
    (h : (fetch_wf_config sha256hex env d).toolInvoked = true) :
    ∃ cp mk cr, fetch_wf_config sha256hex env d = freshResolve env d cp mk cr := by
  unfold fetch_wf_config at h ⊢
  split at h
  · simp at h
  · rename_i hcond
    split at h
    · rename_i cfn heq
      split at h
      · simp at h
      · simp at h
      · exact ⟨_, _, _, by rw [if_neg hcond]⟩
    · rename_i heq
      exact ⟨_, _, _, by rw [if_neg hcond]⟩

theorem fetch_mkdirCalls_eq (sha256hex : String → String) (env : Env)
    (d : WorkflowDir) :
    (fetch_wf_config sha256hex env d).mkdirCalls = mkdirCallsOf env := by
  unfold fetch_wf_config
  split
  · rfl
  · split
    · split
      · rfl
      · rfl
      · exact freshResolve_mkdirCalls env d _ _ _
    · exact freshResolve_mkdirCalls env d _ _ _

/-! The claims. -/

/-- C4 (confirmed): the fingerprint computed by `fetch_wf_config` depends only
on the contents of the tracked files `nextflow.config` and `main.nf` (with the
same subset present); directories agreeing on those contents get identical
fingerprints and identical cache filenames, whatever their timestamps,
permissions or unrelated files. -/
theorem fingerprint_deterministic (sha256hex : String → String)
    (d₁ d₂ : WorkflowDir)
    (hcfg : d₁.nextflow_config = d₂.nextflow_config)
    (hmain : d₁.main_nf = d₂.main_nf) :
    bighash sha256hex d₁ = bighash sha256hex d₂ ∧
    cache_fn_of sha256hex d₁ = cache_fn_of sha256hex d₂ := by
  have h : concat_hash sha256hex d₁ = concat_hash sha256hex d₂ := by
    unfold concat_hash
    rw [hcfg, hmain]
  refine ⟨?_, ?_⟩
  · unfold bighash
    rw [h]
  · unfold cache_fn_of bighash
    rw [h]

/-- Witness for C4: `dCfg` and `dCfgOther` differ in timestamps, permissions
and unrelated files but have identical tracked contents. -/
theorem fingerprint_deterministic_witness :
    bighash constHex dCfg = bighash constHex dCfgOther ∧
    cache_fn_of constHex dCfg = cache_fn_of constHex dCfgOther :=
  fingerprint_deterministic constHex dCfg dCfgOther rfl rfl

/-- C5 (confirmed): with neither `nextflow.config` nor `main.nf` present the
fingerprint is absent (no cache filename is derived) and the resolution runs
with no cache lookup and no cache write. -/
theorem no_tracked_files_bypasses_cache (sha256hex : String → String)
    (env : Env) (d : WorkflowDir)
    (hcfg : d.nextflow_config = none) (hmain : d.main_nf = none)
    (hmk : env.mkdir_ok = true) :
    bighash sha256hex d = none ∧
    (fetch_wf_config sha256hex env d).cacheReads = [] ∧
    (fetch_wf_config sha256hex env d).cacheWrites = [] ∧
    (fetch_wf_config sha256hex env d).toolInvoked = true := by
  have h0 : concat_hash sha256hex d = "" := by
    unfold concat_hash
    rw [hcfg, hmain]
    rfl
  have hbh : bighash sha256hex d = none := by
    unfold bighash
    rw [h0]
    rfl
  have hfp : cache_fn_of sha256hex d = none := by
    unfold cache_fn_of
    rw [hbh]
    rfl
  have hf := fetch_no_fingerprint hfp hmk
  refine ⟨hbh, ?_, ?_, ?_⟩
  · rw [hf]; exact freshResolve_cacheReads env d none (mkdirCallsOf env) []
  · rw [hf]; exact freshResolve_none_cacheWrites env d (mkdirCallsOf env) []
  · rw [hf]; exact freshResolve_toolInvoked env d none (mkdirCallsOf env) []

/-- Witness for C5: an empty workflow directory under a fully working cache
environment still bypasses the cache. -/
theorem no_tracked_files_bypasses_cache_witness :
    bighash constHex dEmpty = none ∧
    (fetch_wf_config constHex envRound dEmpty).cacheReads = [] ∧
    (fetch_wf_config constHex envRound dEmpty).cacheWrites = [] ∧
    (fetch_wf_config constHex envRound dEmpty).toolInvoked = true :=
  no_tracked_files_bypasses_cache constHex envRound dEmpty rfl rfl rfl

/-- C6 (confirmed): on a cache hit (fingerprint present, cache file present
and parseable) `fetch_wf_config` returns the stored mapping at once — no tool
invocation, no source scan, no cache write; and after a first resolution of
the same directory stored its result, a second resolution returns exactly the
first result without invoking the tool. -/
theorem cache_hit_returns_stored :
    (∀ (sha256hex : String → String) (env : Env) (d : WorkflowDir)
        (cfn : String) (m : ConfigMapping),
        env.nxf_home_isdir = true → env.cache_basedir_isdir = true →
        cache_fn_of sha256hex d = some cfn →
        env.cacheFiles cfn = some (some m) →
        (fetch_wf_config sha256hex env d).result = .returned m ∧
        (fetch_wf_config sha256hex env d).toolInvoked = false ∧
        (fetch_wf_config sha256hex env d).scannedMain = false ∧
        (fetch_wf_config sha256hex env d).cacheWrites = []) ∧
    (∀ (sha256hex : String → String) (env : Env) (d : WorkflowDir)
        (cfn : String) (m₁ : ConfigMapping),
        env.nxf_home_isdir = true → env.cache_basedir_isdir = true →
        env.write_ok = true →
        cache_fn_of sha256hex d = some cfn → env.cacheFiles cfn = none →
        (fetch_wf_config sha256hex env d).result = .returned m₁ →
        (fetch_wf_config sha256hex
            (stepEnv env (fetch_wf_config sha256hex env d)) d).result =
          .returned m₁ ∧
        (fetch_wf_config sha256hex
            (stepEnv env (fetch_wf_config sha256hex env d)) d).toolInvoked =
          false) := by
  have hit : ∀ (s : String → String) (env : Env) (d : WorkflowDir)
      (cfn : String) (m : ConfigMapping),
      env.nxf_home_isdir = true → env.cache_basedir_isdir = true →
      cache_fn_of s d = some cfn → env.cacheFiles cfn = some (some m) →
      (fetch_wf_config s env d).result = .returned m ∧
      (fetch_wf_config s env d).toolInvoked = false ∧
      (fetch_wf_config s env d).scannedMain = false ∧
      (fetch_wf_config s env d).cacheWrites = [] := by
    intro s env d cfn m hh hb hfp hfile
    rw [fetch_hit hh hb hfp hfile]
    exact ⟨rfl, rfl, rfl, rfl⟩
  refine ⟨hit, ?_⟩
  intro s env d cfn m₁ hh hb hwok hfp hmiss hres
  have hfe : fetch_wf_config s env d = freshResolve env d (some cfn) [] [cfn] :=
    fetch_miss hh hb hfp hmiss
  rw [hfe] at hres
  have hwrites : (freshResolve env d (some cfn) [] [cfn]).cacheWrites =
      [(cfn, m₁)] := freshResolve_returned_writes hwok hres
  have henv2home : (stepEnv env (fetch_wf_config s env d)).nxf_home_isdir =
      true := by simp [stepEnv, hh]
  have henv2base :
      (stepEnv env (fetch_wf_config s env d)).cache_basedir_isdir = true := by
    simp [stepEnv, hb]
  have henv2file : (stepEnv env (fetch_wf_config s env d)).cacheFiles cfn =
      some (some m₁) := by
    simp [stepEnv, hfe, hwrites, writeFiles]
  have h2 := hit s (stepEnv env (fetch_wf_config s env d)) d cfn m₁
    henv2home henv2base hfp henv2file
  exact ⟨h2.1, h2.2.1⟩

/-- Witness for C6 (first part): with every cache file reading back
`[("k", "v")]`, resolution returns it with no tool call, scan or write. -/
theorem cache_hit_returns_stored_witness :
    (fetch_wf_config constHex envHit dCfg).result = .returned [("k", "v")] ∧
    (fetch_wf_config constHex envHit dCfg).toolInvoked = false ∧
    (fetch_wf_config constHex envHit dCfg).scannedMain = false ∧
    (fetch_wf_config constHex envHit dCfg).cacheWrites = [] :=
  cache_hit_returns_stored.1 constHex envHit dCfg cfnHex [("k", "v")]
    rfl rfl (by decide) rfl

/-- C7 (confirmed): when the subprocess launch raises `OSError` with
`ENOENT` (the `nextflow` executable cannot be located), `fetch_wf_config`
raises the `AssertionError` telling the user Nextflow is required, and
performs no cache write. -/
theorem tool_missing_raises (sha256hex : String → String) (env : Env)
    (d : WorkflowDir)
    (hinv : (fetch_wf_config sha256hex env d).toolInvoked = true)
    (htool : env.tool = .osErrorRaised ENOENT) :
    (fetch_wf_config sha256hex env d).result =
      .raised (.assertionError nextflowMissingMsg) ∧
    (fetch_wf_config sha256hex env d).cacheWrites = [] := by
  obtain ⟨cp, mk, cr, heq⟩ := fetch_invoked hinv
  rw [heq, freshResolve_oserror_enoent d cp mk cr htool]
  exact ⟨rfl, rfl⟩

/-- Witness for C7. -/
theorem tool_missing_raises_witness :
    (fetch_wf_config constHex envNoTool dEmpty).result =
      .raised (.assertionError nextflowMissingMsg) ∧
    (fetch_wf_config constHex envNoTool dEmpty).cacheWrites = [] :=
  tool_missing_raises constHex envNoTool dEmpty (by decide) rfl

/-- C8 (confirmed): tool-output parsing splits each line at the first
occurrence of the separator token, skips separator-free lines without error,
and lets a later line with the same key overwrite the earlier value;
the spec example evaluates as claimed. -/
theorem tool_output_parsing :
    (∀ (c : ConfigMapping) (ul : String),
        splitPyOnce ul = none → parseLine c ul = c) ∧
    (∀ (c : ConfigMapping) (ul k v : String),
        splitPyOnce ul = some (k, v) →
        parseLine c ul = dictInsert c k v ∧
        dictGet (dictInsert c k v) k = some v) ∧
    splitPyOnce "a = b = c" = some ("a", "b = c") ∧
    parseToolOutput [] ["foo = bar", "garbage"] = [("foo", "bar")] := by
  refine ⟨?_, ?_, by decide, by decide⟩
  · intro c ul h
    simp [parseLine, h]
  · intro c ul k v h
    refine ⟨by simp [parseLine, h], ?_⟩
    rw [dictGet_dictInsert]
    simp

/-- Witness for C8: the well-formed line of the spec example. -/
theorem tool_output_parsing_witness :
    parseLine [] "foo = bar" = dictInsert [] "foo" "bar" ∧
    dictGet (dictInsert [] "foo" "bar") "foo" = some "bar" :=
  tool_output_parsing.2.1 [] "foo = bar" "foo" "bar" (by decide)

/-- C9 (confirmed): an `OSError` from the subprocess whose errno is not
`ENOENT` is silently swallowed — `fetch_wf_config` neither raises nor parses
tool output; the result is exactly the `main.nf` scan of an empty mapping,
every entry carries the sentinel value, and any cache write persists that
scan-only mapping. -/
theorem tool_oserror_swallowed (sha256hex : String → String) (env : Env)
    (d : WorkflowDir) (e : Nat)
    (hinv : (fetch_wf_config sha256hex env d).toolInvoked = true)
    (htool : env.tool = .osErrorRaised e) (hne : e ≠ ENOENT)
    (hw : env.write_ok = true) :
    (fetch_wf_config sha256hex env d).result =
      .returned (scanMainNf [] d.main_nf) ∧
    (∀ kv ∈ scanMainNf [] d.main_nf, kv.2 = "false") ∧
    (∀ w ∈ (fetch_wf_config sha256hex env d).cacheWrites,
        w.2 = scanMainNf [] d.main_nf) := by
  obtain ⟨cp, mk, cr, heq⟩ := fetch_invoked hinv
  rw [heq, freshResolve_oserror_other d cp mk cr htool hne]
  have hvals : ∀ kv ∈ scanMainNf [] d.main_nf, kv.2 = "false" := by
    rw [scanMainNf_eq_scanFold]
    refine values_scanFold _ [] ?_
    intro kv h
    simp at h
  cases cp with
  | none =>
      rw [afterTool_none]
      refine ⟨rfl, hvals, ?_⟩
      intro w hw'
      simp at hw'
  | some cfn =>
      rw [afterTool_some_ok env d cfn mk cr _ hw]
      refine ⟨rfl, hvals, ?_⟩
      intro w hw'
      simp at hw'
      rw [hw']

/-- Witness for C9: `EACCES` (13) from the subprocess call. -/
theorem tool_oserror_swallowed_witness :
    (fetch_wf_config constHex envEacces dScan).result =
      .returned (scanMainNf [] dScan.main_nf) ∧
    (∀ kv ∈ scanMainNf [] dScan.main_nf, kv.2 = "false") ∧
    (∀ w ∈ (fetch_wf_config constHex envEacces dScan).cacheWrites,
        w.2 = scanMainNf [] dScan.main_nf) :=
  tool_oserror_swallowed constHex envEacces dScan 13 (by decide) rfl
    (by decide) rfl

/-- C10 (confirmed): cache reads and writes happen only when the Nextflow
home directory already exists; when it does not, resolution is fully fresh
with no cache read, no cache write and no directory creation; the only
directory ever created is the `nf-core` subdirectory, and only lazily beneath
an existing home. -/
theorem cache_requires_existing_home :
    (∀ (sha256hex : String → String) (env : Env) (d : WorkflowDir),
        env.nxf_home_isdir = false →
        (fetch_wf_config sha256hex env d).cacheReads = [] ∧
        (fetch_wf_config sha256hex env d).cacheWrites = [] ∧
        (fetch_wf_config sha256hex env d).mkdirCalls = [] ∧
        (fetch_wf_config sha256hex env d).toolInvoked = true) ∧
    (∀ (sha256hex : String → String) (env : Env) (d : WorkflowDir),
        (fetch_wf_config sha256hex env d).mkdirCalls ≠ [] →
        (fetch_wf_config sha256hex env d).mkdirCalls = ["nf-core"] ∧
        env.nxf_home_isdir = true ∧ env.cache_basedir_isdir = false) ∧
    (∀ (sha256hex : String → String) (env : Env) (d : WorkflowDir),
        (fetch_wf_config sha256hex env d).cacheReads ≠ [] ∨
        (fetch_wf_config sha256hex env d).cacheWrites ≠ [] →
        env.nxf_home_isdir = true) := by
  have no_home : ∀ (s : String → String) (env : Env) (d : WorkflowDir),
      env.nxf_home_isdir = false →
      (fetch_wf_config s env d).cacheReads = [] ∧
      (fetch_wf_config s env d).cacheWrites = [] ∧
      (fetch_wf_config s env d).mkdirCalls = [] ∧
      (fetch_wf_config s env d).toolInvoked = true := by
    intro s env d hh
    rw [fetch_no_home s d hh]
    exact ⟨freshResolve_cacheReads env d none [] [],
      freshResolve_none_cacheWrites env d [] [],
      freshResolve_mkdirCalls env d none [] [],
      freshResolve_toolInvoked env d none [] []⟩
  refine ⟨no_home, ?_, ?_⟩
  · intro s env d hne
    cases hh : env.nxf_home_isdir <;> cases hb : env.cache_basedir_isdir <;>
      simp [fetch_mkdirCalls_eq, mkdirCallsOf, hh, hb] at hne ⊢
  · intro s env d hor
    by_cases hh : env.nxf_home_isdir = true
    · exact hh
    · have hh' : env.nxf_home_isdir = false := by
        simpa using hh
      rcases no_home s env d hh' with ⟨hr, hw, _, _⟩
      rcases hor with h | h
      · exact absurd hr h
      · exact absurd hw h

/-- Witness for C10 (first part): no home directory means a fully fresh
resolution without cache traffic. -/
theorem cache_requires_existing_home_witness :
    (fetch_wf_config constHex envScan dScan).cacheReads = [] ∧
    (fetch_wf_config constHex envScan dScan).cacheWrites = [] ∧
    (fetch_wf_config constHex envScan dScan).mkdirCalls = [] ∧
    (fetch_wf_config constHex envScan dScan).toolInvoked = true :=
  cache_requires_existing_home.1 constHex envScan dScan rfl

/-- Counterexample to C1 as stated: the tool reports `params.a = 1` and
`main.nf` declares `params.a` and `params.b`; the merged result maps
`params.a` to the sentinel `"false"`, not to the tool value `"1"` — the scan
overwrites the tool key instead of leaving it alone. -/
theorem merge_precedence_counterexample :
    dictGet (parseToolOutput [] ["params.a = 1"]) "params.a" = some "1" ∧
    scannedNamesOf dScan.main_nf = ["params.a", "params.b"] ∧
    (fetch_wf_config constHex envScan dScan).result =
      .returned [("params.a", "false"), ("params.b", "false")] ∧
    dictGet [("params.a", "false"), ("params.b", "false")] "params.a" =
      some "false" ∧
    some "false" ≠ some "1" := by
  refine ⟨by decide, by decide, by decide, by decide, by decide⟩

/-- C1 (corrected): the merge is last-write-wins in favour of the scan, not
of the tool.  Whenever the tool invocation succeeds and `fetch_wf_config`
returns a mapping, every parameter name scanned from `main.nf` is mapped to
the sentinel `"false"` — overwriting any tool-produced value for that key —
and only keys not scanned keep their tool-parsed value. -/
theorem merge_scan_overwrites (sha256hex : String → String) (env : Env)
    (d : WorkflowDir) (lines : List String) (m : ConfigMapping) (k : String)
    (htool : env.tool = .success lines)
    (hinv : (fetch_wf_config sha256hex env d).toolInvoked = true)
    (hres : (fetch_wf_config sha256hex env d).result = .returned m) :
    (k ∈ scannedNamesOf d.main_nf → dictGet m k = some "false") ∧
    (k ∉ scannedNamesOf d.main_nf →
      dictGet m k = dictGet (parseToolOutput [] lines) k) := by
  obtain ⟨cp, mk, cr, heq⟩ := fetch_invoked hinv
  rw [heq, freshResolve_success d cp mk cr htool] at hres
  have hm : m = scanMainNf (parseToolOutput [] lines) d.main_nf :=
    afterTool_returned hres
  rw [hm, scanMainNf_eq_scanFold]
  constructor
  · intro hk
    rw [dictGet_scanFold]
    simp [hk]
  · intro hk
    rw [dictGet_scanFold]
    simp [hk]

/-- Witness for C1 (amended): concrete run of `merge_scan_overwrites` at the
counterexample inputs. -/
theorem merge_scan_overwrites_witness :
    ("params.b" ∈ scannedNamesOf dScan.main_nf →
      dictGet [("params.a", "false"), ("params.b", "false")] "params.b" =
        some "false") ∧
    ("params.b" ∉ scannedNamesOf dScan.main_nf →
      dictGet [("params.a", "false"), ("params.b", "false")] "params.b" =
        dictGet (parseToolOutput [] ["params.a = 1"]) "params.b") :=
  merge_scan_overwrites constHex envScan dScan ["params.a = 1"]
    [("params.a", "false"), ("params.b", "false")] "params.b"
    rfl (by decide) (by decide)

/-- Counterexample to C2 as stated: a cache file that exists but whose
content does not parse makes `fetch_wf_config` raise (the `json.load`
exception is not caught), rather than treating it as a miss. -/
theorem corrupt_cache_raises :
    envCorrupt.cacheFiles cfnHex = some none ∧
    cache_fn_of constHex dCfg = some cfnHex ∧
    (fetch_wf_config constHex envCorrupt dCfg).result =
      .raised .jsonDecodeError ∧
    (fetch_wf_config constHex envCorrupt dCfg).toolInvoked = false := by
  refine ⟨rfl, by decide, by decide, by decide⟩

/-- C2 (corrected): a missing cache file is an ordinary miss (resolution
proceeds to invoke the tool after looking the file up), but a cache file that
exists with unparseable content makes `fetch_wf_config` raise the decode
error instead of proceeding. -/
theorem cache_miss_vs_corrupt :
    (∀ (sha256hex : String → String) (env : Env) (d : WorkflowDir)
        (cfn : String),
        env.nxf_home_isdir = true → env.cache_basedir_isdir = true →
        cache_fn_of sha256hex d = some cfn → env.cacheFiles cfn = none →
        (fetch_wf_config sha256hex env d).toolInvoked = true ∧
        (fetch_wf_config sha256hex env d).cacheReads = [cfn]) ∧
    (∀ (sha256hex : String → String) (env : Env) (d : WorkflowDir)
        (cfn : String),
        env.nxf_home_isdir = true → env.cache_basedir_isdir = true →
        cache_fn_of sha256hex d = some cfn → env.cacheFiles cfn = some none →
        (fetch_wf_config sha256hex env d).result = .raised .jsonDecodeError ∧
        (fetch_wf_config sha256hex env d).toolInvoked = false) := by
  constructor
  · intro s env d cfn hh hb hfp hfile
    rw [fetch_miss hh hb hfp hfile]
    exact ⟨freshResolve_toolInvoked env d (some cfn) [] [cfn],
      freshResolve_cacheReads env d (some cfn) [] [cfn]⟩
  · intro s env d cfn hh hb hfp hfile
    rw [fetch_corrupt hh hb hfp hfile]
    exact ⟨rfl, rfl⟩

/-- Witness for C2 (amended), first part: a clean miss proceeds to the tool
after reading the cache filename. -/
theorem cache_miss_vs_corrupt_witness :
    (fetch_wf_config constHex envRound dCfg).toolInvoked = true ∧
    (fetch_wf_config constHex envRound dCfg).cacheReads = [cfnHex] :=
  cache_miss_vs_corrupt.1 constHex envRound dCfg cfnHex rfl rfl (by decide) rfl

/-- Counterexample to C3 as stated: with the cache write failing, the fresh
mapping has been computed (the scan completed) yet `fetch_wf_config` raises
instead of returning it. -/
theorem persist_failure_counterexample :
    (fetch_wf_config constHex envNoWrite dCfg).result =
      .raised (.osError "open cache_path for writing") ∧
    (fetch_wf_config constHex envNoWrite dCfg).scannedMain = true ∧
    (fetch_wf_config constHex envNoWrite dCfg).cacheWrites = [] := by
  refine ⟨by decide, by decide, by decide⟩

/-- C3 (corrected): a failure to create the cache directory raises before any
resolution work, and a failure to write the cache file raises after the fresh
mapping was computed — in neither case is the freshly computed mapping
returned; the exception propagates out of `fetch_wf_config`. -/
theorem cache_persist_failure_aborts :
    (∀ (sha256hex : String → String) (env : Env) (d : WorkflowDir),
        env.nxf_home_isdir = true → env.cache_basedir_isdir = false →
        env.mkdir_ok = false →
        (fetch_wf_config sha256hex env d).result =
          .raised (.osError "mkdir cache_basedir") ∧
        (fetch_wf_config sha256hex env d).toolInvoked = false) ∧
    (∀ (sha256hex : String → String) (env : Env) (d : WorkflowDir)
        (cfn : String) (lines : List String),
        env.nxf_home_isdir = true → env.cache_basedir_isdir = true →
        cache_fn_of sha256hex d = some cfn → env.cacheFiles cfn = none →
        env.tool = .success lines → env.write_ok = false →
        (fetch_wf_config sha256hex env d).result =
          .raised (.osError "open cache_path for writing") ∧
        (fetch_wf_config sha256hex env d).scannedMain = true) := by
  constructor
  · intro s env d hh hb hm
    rw [fetch_mkdir_fail s d hh hb hm]
    exact ⟨rfl, rfl⟩
  · intro s env d cfn lines hh hb hfp hfile htool hw
    rw [fetch_miss hh hb hfp hfile,
      freshResolve_success d (some cfn) [] [cfn] htool,
      afterTool_some_fail env d cfn [] [cfn] _ hw]
    exact ⟨rfl, rfl⟩

/-- Witness for C3 (amended), second part: the failing-write scenario of the
counterexample. -/
theorem cache_persist_failure_aborts_witness :
    (fetch_wf_config constHex envNoWrite dCfg).result =
      .raised (.osError "open cache_path for writing") ∧
    (fetch_wf_config constHex envNoWrite dCfg).scannedMain = true :=
  cache_persist_failure_aborts.2 constHex envNoWrite dCfg cfnHex ["a = 1"]
    rfl rfl (by decide) rfl rfl rfl

end NfCoreUtils
